import Mathlib

/-!
Verification development for the conversational-db repository (src/app.py).

The pipeline under study: schema description of an uploaded CSV dataframe,
prompt construction, delegation to a language-model completion service,
SQL execution with error normalization, and conversation-history accumulation.

Python strings are modelled as Lean `String`/`List Char`; the pandas dataframe
is modelled by the parts the code reads (an ordered list of columns, each with
a name and a dtype string); the sqlite engine and the completion service are
modelled as function parameters returning `Except`, mirroring the fact that the
Python calls either return a value or raise.
-/

namespace ConvDb

/-! ### Python string primitives used by app.py -/

/-- The whitespace characters removed by Python `str.strip()` (ASCII range). -/
def isPySpace (c : Char) : Bool :=
  c == ' ' || c == '\t' || c == '\n' || c == '\r' || c == '\x0b' || c == '\x0c'

/-- ASCII lower-casing, as Python `str.lower()` performs on ASCII text. -/
def lowerChar (c : Char) : Char :=
  if 'A' ≤ c && c ≤ 'Z' then Char.ofNat (c.toNat + 32) else c

/-- `listStartsWith needle hay` : `needle` is a leading segment of `hay`. -/
def listStartsWith : List Char → List Char → Bool
  | [], _ => true
  | _ :: _, [] => false
  | a :: as, b :: bs => a == b && listStartsWith as bs

/-- `listContains needle hay` : Python's substring test `needle in hay`. -/
def listContains (needle : List Char) : List Char → Bool
  | [] => listStartsWith needle []
  | b :: bs => listStartsWith needle (b :: bs) || listContains needle bs

/-- Python `s.split(sep)` for a one-character separator (never returns `[]`;
`"".split(sep) = [""]`). -/
def pySplitChar (sep : Char) : List Char → List (List Char)
  | [] => [[]]
  | c :: cs =>
    match pySplitChar sep cs with
    | [] => [[]]
    | h :: t => if c == sep then [] :: h :: t else (c :: h) :: t

/-- Python's `[-1]` on a list, with `[]` as (unreachable) default. -/
def lastSegD : List (List Char) → List Char
  | [] => []
  | [x] => x
  | _ :: x :: xs => lastSegD (x :: xs)

/-- Python `str.strip()` : drop whitespace from both ends. -/
def pyStrip (l : List Char) : List Char :=
  ((l.dropWhile isPySpace).reverse.dropWhile isPySpace).reverse

/-- Python `str.strip()` at the `String` level. -/
def pyStripStr (s : String) : String := ⟨pyStrip s.data⟩

/-- Python `str.rstrip(', ')` : drop trailing characters from the set {',', ' '}. -/
def isCommaSpace (c : Char) : Bool := c == ',' || c == ' '

/-- Python `s.rstrip(', ')` at the `String` level. -/
def pyRstripStr (s : String) : String :=
  ⟨(s.data.reverse.dropWhile isCommaSpace).reverse⟩

/-! ### Query Executor — `execute_sql_query` (src/app.py lines 63-81) -/

/-- Fixed message for errors classified as missing-table. -/
def msgNoSuchTable : String := "The query could not find the specified table."

/-- Fixed message for errors classified as malformed SQL. -/
def msgBadSql : String := "The query has a syntax error."

/-- Fixed fallback message for all other execution errors. -/
def msgGeneric : String := "An error occurred while executing the query."

/-- The first substring the classifier looks for (line 74). -/
def needleNoTable : List Char := "no such table".data

/-- The second substring the classifier looks for (line 76). -/
def needleBadSql : List Char := "syntax error".data

/-- Line 73: `error_message = str(e).split(':')[-1].strip()` — the text after
the last colon of the raised error's message, whitespace-stripped. -/
def simplifiedMessage (e : String) : List Char :=
  pyStrip (lastSegD (pySplitChar ':' e.data))

/-- Lines 73-79: classify the raised error message into one of the three fixed
user-facing messages.  The substring tests are performed on the lower-cased
simplified message (`error_message.lower()`). -/
def normalizeError (e : String) : String :=
  let em := (simplifiedMessage e).map lowerChar
  if listContains needleNoTable em then msgNoSuchTable
  else if listContains needleBadSql em then msgBadSql
  else msgGeneric

/-- Lines 63-81: `execute_sql_query(engine, sql_query)`.  The engine together
with `pd.read_sql_query` is modelled by `run`, which either returns the result
rows or raises (returns `Except.error`) with a message.  On success the pair
(result, no error) is returned; on failure (no result, normalized message). -/
def execute_sql_query (run : String → Except String (List (List String)))
    (sql_query : String) : Option (List (List String)) × Option String :=
  match run sql_query with
  | Except.ok rows => (some rows, none)
  | Except.error e => (none, some (normalizeError e))

/-! ### Schema Descriptor — `generate_schema` (src/app.py lines 6-11) -/

/-- A dataframe column as the code reads it: its name (`col`) and the string
form of its dtype (`str(df[col].dtype)`). -/
structure DfColumn where
  name : String
  dtype : String
deriving DecidableEq

/-- Lines 6-11: build `"<col> (<dtype>), "` per column by iteration, then
`rstrip(', ')` the accumulated string. -/
def generate_schema (cols : List DfColumn) : String :=
  pyRstripStr (cols.foldl (fun schema c => schema ++ c.name ++ " (" ++ c.dtype ++ "), ") "")

/-- Modelled from the spec: entries of the form `<name> (<type>)` joined by
`", "` with no trailing separator — the comparison point for `generate_schema`. -/
def joinCommaSpace : List String → String
  | [] => ""
  | [e] => e
  | e :: e' :: es => e ++ ", " ++ joinCommaSpace (e' :: es)

/-! ### Prompt Builder — `construct_prompt` (src/app.py lines 13-27) -/

/-- Lines 13-27: the fixed prompt template around the schema text and the
verbatim (quoted) user request. -/
def construct_prompt (natural_language_query schema : String) : String :=
  "\nYou are an AI assistant that converts natural language to SQL queries.\n\nHere is the database schema:\nTable: data\nColumns:\n"
    ++ schema
    ++ "\n\nGenerate a SQL query for the following request:\n\""
    ++ natural_language_query
    ++ "\"\n\nOnly provide the SQL query.\n    "

/-! ### Query Generator — `generate_sql_query` (src/app.py lines 29-41) -/

/-- Lines 29-41: build the prompt and send it to the completion service
(modelled by `llm`, which returns the completion content or raises); on
success the content is stripped (`.strip()`).  A raised error is not caught. -/
def generate_sql_query (llm : String → Except String String)
    (natural_language_query schema : String) : Except String String :=
  (llm (construct_prompt natural_language_query schema)).map pyStripStr

/-! ### Table Materializer — `create_database_table` (src/app.py lines 43-61) -/

/-- The sqlalchemy column types used by the materializer. -/
inductive SqlColType
  | integerType
  | floatType
  | stringType
deriving DecidableEq

/-- Lines 48-54: the dtype-to-column-type mapping: `'int64'` → Integer,
`'float64'` → Float, anything else → String. -/
def mapDtype (dtype : String) : SqlColType :=
  if dtype == "int64" then SqlColType.integerType
  else if dtype == "float64" then SqlColType.floatType
  else SqlColType.stringType

/-- Lines 43-61: the table named "data" is built with one column per dataframe
column, typed by `mapDtype`. -/
def create_database_table (cols : List DfColumn) : List (String × SqlColType) :=
  cols.map fun c => (c.name, mapDtype c.dtype)

/-! ### Session state and history (src/app.py lines 83-181) -/

/-- One conversation-history entry (the dict appended at lines 171-176). -/
structure HistEntry where
  query : String
  sql_query : String
  response : String
  table : String
deriving DecidableEq

/-- The session state the submit handler reads and writes: the history list
and the pending request text (lines 85-88). -/
structure SessionState where
  history : List HistEntry
  current_query : String
deriving DecidableEq

/-- Lines 85-88: history starts empty, pending request starts as `""`. -/
def initialState : SessionState := { history := [], current_query := "" }

/-- Lines 153-168: turn the executor's output into the `(response_text,
table_html)` pair stored in the entry.  `toHtml` and `toStr` model pandas
`DataFrame.to_html` / `DataFrame.to_string`. -/
def formatResult (toHtml toStr : List (List String) → String) (user_query : String)
    (result : Option (List (List String))) (error : String) : String × String :=
  match result with
  | some rows =>
    if rows.isEmpty then
      ("The query executed successfully but returned no results.", "")
    else if listContains "table".data (user_query.data.map lowerChar) then
      ("", toHtml rows)
    else
      (toStr rows, "")
  | none => ("Error: " ++ error, "")

/-- The history entry built at lines 171-176 from a submission's pieces. -/
def entryFor (toHtml toStr : List (List String) → String) (user_query sql_query : String)
    (result : Option (List (List String))) (error : String) : HistEntry :=
  { query := user_query
    sql_query := sql_query
    response := (formatResult toHtml toStr user_query result error).1
    table := (formatResult toHtml toStr user_query result error).2 }

/-- What the history loop (lines 123-129) shows for an entry's result:
the table html when non-empty, else the response text when non-empty,
else nothing. -/
inductive RenderedBlock
  | tableBlock (html : String)
  | textBlock (s : String)
  | noBlock
deriving DecidableEq

/-- Lines 126-129: `if entry["table"]: ... elif entry["response"]: ...`. -/
def renderResult (entry : HistEntry) : RenderedBlock :=
  if entry.table ≠ "" then RenderedBlock.tableBlock entry.table
  else if entry.response ≠ "" then RenderedBlock.textBlock entry.response
  else RenderedBlock.noBlock

/-- How a single press of "Submit Query" ends (lines 137-180). -/
inductive SubmitOutcome
  | missingKey
  | duplicate
  | genFailure (err : String)
  | executed (sql_query : String) (result : Option (List (List String))) (error : Option String)
deriving DecidableEq

/-- Observable trace of one submission: the state afterwards, how it ended,
whether a warning was shown, and how many prompts were built, completion
calls made, and SQL executions performed. -/
structure SubmitTrace where
  state : SessionState
  outcome : SubmitOutcome
  warningShown : Bool
  promptsBuilt : Nat
  genCalls : Nat
  sqlExecs : Nat
deriving DecidableEq

/-- Lines 137-180: the submit handler (file already uploaded, button pressed).
`hasKey` is the truthiness of the entered API key; `llm` models the completion
service; `run` models `pd.read_sql_query` on the session's engine; `df` is the
uploaded dataframe's columns.  With no key only a warning is shown (line 180);
with a key, a submission equal to the pending request is warned about
(line 178); otherwise the pending request is updated (line 144), the pipeline
runs, and on generation success an entry is appended (lines 146-176).
A completion-service failure propagates uncaught (there is no try around
line 147), after the pending request was already updated. -/
def submitQuery (hasKey : Bool) (llm : String → Except String String)
    (run : String → Except String (List (List String)))
    (toHtml toStr : List (List String) → String)
    (df : List DfColumn) (s : SessionState) (user_query : String) : SubmitTrace :=
  if hasKey then
    if s.current_query ≠ user_query then
      let s1 : SessionState := { s with current_query := user_query }
      let schema := generate_schema df
      match generate_sql_query llm user_query schema with
      | Except.error e =>
        { state := s1, outcome := SubmitOutcome.genFailure e, warningShown := false
          promptsBuilt := 1, genCalls := 1, sqlExecs := 0 }
      | Except.ok sql_query =>
        let res := execute_sql_query run sql_query
        { state := { s1 with
            history := s1.history ++ [entryFor toHtml toStr user_query sql_query res.1 (res.2.getD "")] }
          outcome := SubmitOutcome.executed sql_query res.1 res.2
          warningShown := false, promptsBuilt := 1, genCalls := 1, sqlExecs := 1 }
    else
      { state := s, outcome := SubmitOutcome.duplicate, warningShown := true
        promptsBuilt := 0, genCalls := 0, sqlExecs := 0 }
  else
    { state := s, outcome := SubmitOutcome.missingKey, warningShown := true
      promptsBuilt := 0, genCalls := 0, sqlExecs := 0 }

/-! ### Upload step (src/app.py lines 99-112) -/

/-- The uploaded dataframe: its ordered columns. -/
structure DataFrame where
  cols : List DfColumn
deriving DecidableEq

/-- Lines 103-107: the fixed ordered list of eight expected column names. -/
def expectedColumns : List String :=
  ["Page title and screen name", "Country", "Views",
   "Users", "Views per user", "Average engagement time",
   "Event count", "Key events"]

/-- Modelled from the library the code calls into: pandas' column-label
assignment `df.columns = names` (line 103) raises a `ValueError` when the
assigned list's length differs from the dataframe's column count, and
otherwise relabels the columns in order, keeping their data and dtypes. -/
def setColumns (df : DataFrame) (names : List String) : Except String DataFrame :=
  if names.length = df.cols.length then
    Except.ok ⟨(df.cols.zip names).map fun p => { name := p.2, dtype := p.1.dtype }⟩
  else
    Except.error "Length mismatch: columns must match number of columns"

/-- Lines 99-112: after reading the CSV, forcibly relabel its columns to
`expectedColumns`, then create the in-memory table.  A raised relabeling
error aborts before any table exists. -/
def uploadStep (csv : DataFrame) : Except String (List (String × SqlColType)) :=
  match setColumns csv expectedColumns with
  | Except.error e => Except.error e
  | Except.ok df => Except.ok (create_database_table df.cols)

/-! ### Derived text fragments used in the schema proofs -/

/-- The `<name> (<type>)` text emitted for one column. -/
def entryStr (c : DfColumn) : String := c.name ++ " (" ++ c.dtype ++ ")"

/-- The raw accumulated schema text before the final `rstrip`. -/
def tailStr : List DfColumn → String
  | [] => ""
  | c :: cs => entryStr c ++ ", " ++ tailStr cs

/-- `s` ends with a closing parenthesis. -/
def endsParen (s : String) : Prop := ∃ m, s.data = m ++ [')']

/-! ### Substring-test helper lemmas -/

theorem listStartsWith_append (n s t : List Char)
    (h : listStartsWith n s = true) : listStartsWith n (s ++ t) = true := by
  induction n generalizing s with
  | nil => simp [listStartsWith]
  | cons a as ih =>
    cases s with
    | nil => simp [listStartsWith] at h
    | cons b bs =>
      simp only [listStartsWith, Bool.and_eq_true] at h ⊢
      exact ⟨h.1, ih bs h.2⟩

theorem listContains_nil_needle (l : List Char) : listContains [] l = true := by
  induction l with
  | nil => rfl
  | cons b bs ih => simp [listContains, listStartsWith]

theorem listContains_append_left (n s t : List Char)
    (h : listContains n t = true) : listContains n (s ++ t) = true := by
  induction s with
  | nil => simpa using h
  | cons c cs ih =>
    cases t with
    | nil =>
      cases n with
      | nil => exact listContains_nil_needle _
      | cons a as => simp [listContains, listStartsWith] at h
    | cons d ds =>
      simp only [List.cons_append, listContains, Bool.or_eq_true]
      exact Or.inr ih

theorem listContains_append_right (n s t : List Char)
    (h : listContains n s = true) : listContains n (s ++ t) = true := by
  induction s with
  | nil =>
    cases n with
    | nil => exact listContains_nil_needle _
    | cons a as => simp [listContains, listStartsWith] at h
  | cons c cs ih =>
    simp only [listContains, Bool.or_eq_true] at h
    simp only [List.cons_append, listContains, Bool.or_eq_true]
    cases h with
    | inl hp => exact Or.inl (listStartsWith_append _ _ _ hp)
    | inr hc => exact Or.inr (ih hc)

/-- If the needle occurs in a middle piece, it occurs in the whole. -/
theorem listContains_of_middle (n pre mid post : List Char)
    (h : listContains n mid = true) :
    listContains n (pre ++ mid ++ post) = true := by
  have h1 : listContains n (mid ++ post) = true := listContains_append_right _ _ _ h
  have h2 : listContains n (pre ++ (mid ++ post)) = true := listContains_append_left _ _ _ h1
  simpa [List.append_assoc] using h2

/-! ### The simplified message is carved out of the original message -/

theorem pySplitChar_ne_nil (sep : Char) (l : List Char) :
    pySplitChar sep l ≠ [] := by
  cases l with
  | nil => simp [pySplitChar]
  | cons c cs =>
    simp only [pySplitChar]
    match pySplitChar sep cs with
    | [] => simp
    | h :: t =>
      by_cases hc : (c == sep) = true
      · simp [hc]
      · simp [hc]

theorem pySplitChar_singleton (sep : Char) (l : List Char) (h : List Char)
    (hl : pySplitChar sep l = [h]) : h = l := by
  induction l generalizing h with
  | nil =>
    simp only [pySplitChar] at hl
    injection hl with h1 h2
    exact h1.symm
  | cons c cs ih =>
    simp only [pySplitChar] at hl
    cases hr : pySplitChar sep cs with
    | nil => exact absurd hr (pySplitChar_ne_nil sep cs)
    | cons h' t' =>
      rw [hr] at hl
      by_cases hc : (c == sep) = true
      · simp [hc] at hl
      · simp only [hc, if_false, Bool.false_eq_true] at hl
        have ht : t' = [] := by
          cases t' with
          | nil => rfl
          | cons x xs => simp at hl
        subst ht
        have hh : h = c :: h' := by simpa using hl.symm
        have := ih h' (by rw [hr])
        rw [hh, this]

theorem lastSegD_cons_cons (a b : List Char) (l : List (List Char)) :
    lastSegD (a :: b :: l) = lastSegD (b :: l) := rfl

/-- The last colon segment of a message is a suffix of the message. -/
theorem lastSeg_suffix (sep : Char) (l : List Char) :
    ∃ pre, l = pre ++ lastSegD (pySplitChar sep l) := by
  induction l with
  | nil => exact ⟨[], rfl⟩
  | cons c cs ih =>
    obtain ⟨pre, hpre⟩ := ih
    simp only [pySplitChar]
    cases hr : pySplitChar sep cs with
    | nil => exact absurd hr (pySplitChar_ne_nil sep cs)
    | cons h t =>
      rw [hr] at hpre
      by_cases hc : (c == sep) = true
      · simp only [hc, if_true]
        rw [lastSegD_cons_cons]
        exact ⟨c :: pre, by rw [List.cons_append, ← hpre]⟩
      · simp only [hc, if_false, Bool.false_eq_true]
        cases t with
        | nil =>
          have hcs : h = cs := pySplitChar_singleton sep cs h hr
          exact ⟨[], by simp [lastSegD, hcs]⟩
        | cons t0 ts =>
          rw [lastSegD_cons_cons]
          have hsame : lastSegD (h :: t0 :: ts) = lastSegD (t0 :: ts) :=
            lastSegD_cons_cons h t0 ts
          rw [hsame] at hpre
          exact ⟨c :: pre, by rw [List.cons_append, ← hpre]⟩

/-- Stripping whitespace carves an inner piece out of the list. -/
theorem pyStrip_middle (l : List Char) :
    ∃ a b, l = a ++ pyStrip l ++ b := by
  refine ⟨l.takeWhile isPySpace,
    ((l.dropWhile isPySpace).reverse.takeWhile isPySpace).reverse, ?_⟩
  have h2 := congrArg List.reverse
    (List.takeWhile_append_dropWhile isPySpace (l.dropWhile isPySpace).reverse)
  rw [List.reverse_append, List.reverse_reverse] at h2
  calc l = l.takeWhile isPySpace ++ l.dropWhile isPySpace :=
        (List.takeWhile_append_dropWhile isPySpace l).symm
    _ = l.takeWhile isPySpace ++
        (((l.dropWhile isPySpace).reverse.dropWhile isPySpace).reverse ++
         ((l.dropWhile isPySpace).reverse.takeWhile isPySpace).reverse) :=
        congrArg (fun x => l.takeWhile isPySpace ++ x) h2.symm
    _ = l.takeWhile isPySpace ++ pyStrip l ++
        ((l.dropWhile isPySpace).reverse.takeWhile isPySpace).reverse :=
        (List.append_assoc _ _ _).symm

/-- The simplified message sits inside the original message. -/
theorem simplifiedMessage_middle (e : String) :
    ∃ a b, e.data = a ++ pyStrip (lastSegD (pySplitChar ':' e.data)) ++ b := by
  obtain ⟨pre, hpre⟩ := lastSeg_suffix ':' e.data
  obtain ⟨a, b, hab⟩ := pyStrip_middle (lastSegD (pySplitChar ':' e.data))
  refine ⟨pre ++ a, b, ?_⟩
  calc e.data = pre ++ lastSegD (pySplitChar ':' e.data) := hpre
    _ = pre ++ (a ++ pyStrip (lastSegD (pySplitChar ':' e.data)) ++ b) := by
        rw [← hab]
    _ = pre ++ a ++ pyStrip (lastSegD (pySplitChar ':' e.data)) ++ b := by
        simp [List.append_assoc]

/-- If a needle is absent from the lower-cased full message, it is absent from
the lower-cased simplified message. -/
theorem not_contains_simplified (n : List Char) (e : String)
    (h : listContains n (e.data.map lowerChar) = false) :
    listContains n ((simplifiedMessage e).map lowerChar) = false := by
  cases hc : listContains n ((simplifiedMessage e).map lowerChar) with
  | false => rfl
  | true =>
    exfalso
    obtain ⟨a, b, hab⟩ := simplifiedMessage_middle e
    have : listContains n (e.data.map lowerChar) = true := by
      rw [hab]
      simp only [List.map_append]
      exact listContains_of_middle n (a.map lowerChar) _ (b.map lowerChar) hc
    rw [this] at h
    exact Bool.noConfusion h

/-! ### Helper lemmas for the Schema Descriptor -/

theorem str_empty_append (s : String) : "" ++ s = s :=
  String.ext (by simp)

theorem str_append_empty (s : String) : s ++ "" = s :=
  String.ext (by simp)

theorem foldl_schema (cols : List DfColumn) (acc : String) :
    cols.foldl (fun schema c => schema ++ c.name ++ " (" ++ c.dtype ++ "), ") acc
      = acc ++ tailStr cols := by
  induction cols generalizing acc with
  | nil => simp [tailStr, str_append_empty]
  | cons c cs ih =>
    simp only [List.foldl_cons, tailStr, ih]
    rw [show ("), " : String) = ")" ++ ", " from rfl]
    simp [entryStr, String.append_assoc]

theorem endsParen_entry (c : DfColumn) : endsParen (entryStr c) :=
  ⟨(c.name ++ " (" ++ c.dtype).data, rfl⟩

theorem endsParen_append (s t : String) (h : endsParen t) : endsParen (s ++ t) := by
  obtain ⟨m, hm⟩ := h
  exact ⟨s.data ++ m, by rw [String.data_append, hm, List.append_assoc]⟩

theorem joinCommaSpace_cons_cons (e e' : String) (es : List String) :
    joinCommaSpace (e :: e' :: es) = e ++ ", " ++ joinCommaSpace (e' :: es) := rfl

theorem endsParen_join (c : DfColumn) (cs : List DfColumn) :
    endsParen (joinCommaSpace ((c :: cs).map entryStr)) := by
  induction cs generalizing c with
  | nil => exact endsParen_entry c
  | cons c' cs' ih =>
    simp only [List.map_cons, joinCommaSpace_cons_cons]
    rw [String.append_assoc]
    exact endsParen_append _ _ (endsParen_append _ _ (by simpa using ih c'))

theorem dropWhile_commaSpace (r : List Char) :
    List.dropWhile isCommaSpace (' ' :: ',' :: ')' :: r) = ')' :: r := rfl

theorem rstrip_append_comma (s : String) (h : endsParen s) :
    pyRstripStr (s ++ ", ") = s := by
  obtain ⟨m, hm⟩ := h
  apply String.ext
  show ((s ++ ", ").data.reverse.dropWhile isCommaSpace).reverse = s.data
  have h1 : (s ++ ", ").data = (m ++ [')']) ++ [',', ' '] := by
    rw [String.data_append, hm]
  rw [h1]
  have h2 : ((m ++ [')']) ++ [',', ' ']).reverse = ' ' :: ',' :: ')' :: m.reverse := by
    simp
  rw [h2, dropWhile_commaSpace, hm]
  simp

theorem tail_eq_join (c : DfColumn) (cs : List DfColumn) :
    tailStr (c :: cs) = joinCommaSpace ((c :: cs).map entryStr) ++ ", " := by
  induction cs generalizing c with
  | nil =>
    show entryStr c ++ ", " ++ tailStr [] = joinCommaSpace [entryStr c] ++ ", "
    rw [show tailStr [] = "" from rfl, str_append_empty]
    rfl
  | cons c' cs' ih =>
    show entryStr c ++ ", " ++ tailStr (c' :: cs') = _
    rw [ih c']
    simp only [List.map_cons, joinCommaSpace_cons_cons]
    simp [String.append_assoc]

/-- The characterization behind claim C5. -/
theorem generate_schema_eq (cols : List DfColumn) :
    generate_schema cols = joinCommaSpace (cols.map entryStr) := by
  cases cols with
  | nil => rfl
  | cons c cs =>
    show pyRstripStr (List.foldl _ "" (c :: cs)) = _
    rw [foldl_schema, str_empty_append, tail_eq_join]
    exact rstrip_append_comma _ (endsParen_join c cs)

/-! ### Claims C1, C2 — Query Executor error normalization -/

/-- Claim C1 (as frozen) is false on the code: the executor first reduces the
raised message to the text after its last colon (`str(e).split(':')[-1]`), so
the message "no such table: orders" — which contains "no such table" — is
normalized to the generic message, not to the fixed missing-table message. -/
theorem C1_counterexample :
    listContains needleNoTable ("no such table: orders".data.map lowerChar) = true ∧
    execute_sql_query (fun _ => Except.error "no such table: orders") "SELECT * FROM orders"
      = (none, some msgGeneric) ∧
    msgGeneric ≠ msgNoSuchTable := by
  refine ⟨by decide, by decide, by decide⟩

/-- Claim C1 (amended): for every SQL execution error whose message, after
being reduced to the text following its last colon and whitespace-stripped,
contains "no such table" (case-insensitively), `execute_sql_query` returns the
pair (no result, fixed message "The query could not find the specified
table.") and never the raw database error message. -/
theorem C1_theorem (run : String → Except String (List (List String))) (sql e : String)
    (h1 : run sql = Except.error e)
    (h2 : listContains needleNoTable ((simplifiedMessage e).map lowerChar) = true) :
    execute_sql_query run sql = (none, some msgNoSuchTable) := by
  simp [execute_sql_query, h1, normalizeError, h2]

/-- Concrete instance of C1's amended theorem: a colon-free missing-table
message is normalized to the fixed message. -/
theorem C1_witness :
    execute_sql_query (fun _ => Except.error "no such table data") "SELECT * FROM data"
      = (none, some msgNoSuchTable) :=
  C1_theorem (fun _ => Except.error "no such table data") "SELECT * FROM data"
    "no such table data" rfl (by decide)

/-- Claim C2 (as frozen) is false on the code: because the classifier matches
on the text after the message's last colon, the message
"syntax error: near line 3" — which contains "syntax error" — is normalized
to the generic message; and a reduced message containing both needles is
normalized to the missing-table message, since that test comes first. -/
theorem C2_counterexample :
    listContains needleBadSql ("syntax error: near line 3".data.map lowerChar) = true ∧
    execute_sql_query (fun _ => Except.error "syntax error: near line 3") "SELECT 1"
      = (none, some msgGeneric) ∧
    msgGeneric ≠ msgBadSql ∧
    listContains needleBadSql ("no such table syntax error".data.map lowerChar) = true ∧
    execute_sql_query (fun _ => Except.error "no such table syntax error") "SELECT 1"
      = (none, some msgNoSuchTable) := by
  refine ⟨by decide, by decide, by decide, by decide, by decide⟩

/-- Claim C2 (amended): (a) for every SQL execution error whose reduced
message (text after the last colon, whitespace-stripped) contains
"syntax error" but not "no such table" (case-insensitively),
`execute_sql_query` returns the error text "The query has a syntax error.";
(b) for every execution error whose message contains neither "no such table"
nor "syntax error" anywhere (case-insensitively), it returns "An error
occurred while executing the query."; (c) the returned error text is always
one of the three fixed category messages. -/
theorem C2_theorem :
    (∀ (run : String → Except String (List (List String))) (sql e : String),
      run sql = Except.error e →
      listContains needleBadSql ((simplifiedMessage e).map lowerChar) = true →
      listContains needleNoTable ((simplifiedMessage e).map lowerChar) = false →
      execute_sql_query run sql = (none, some msgBadSql)) ∧
    (∀ (run : String → Except String (List (List String))) (sql e : String),
      run sql = Except.error e →
      listContains needleNoTable (e.data.map lowerChar) = false →
      listContains needleBadSql (e.data.map lowerChar) = false →
      execute_sql_query run sql = (none, some msgGeneric)) ∧
    (∀ e : String, normalizeError e = msgNoSuchTable ∨ normalizeError e = msgBadSql ∨
      normalizeError e = msgGeneric) := by
  refine ⟨?_, ?_, ?_⟩
  · intro run sql e h1 h2 h3
    simp [execute_sql_query, h1, normalizeError, h2, h3]
  · intro run sql e h1 h2 h3
    have hn := not_contains_simplified needleNoTable e h2
    have hs := not_contains_simplified needleBadSql e h3
    simp [execute_sql_query, h1, normalizeError, hn, hs]
  · intro e
    rw [normalizeError]
    cases hA : listContains needleNoTable ((simplifiedMessage e).map lowerChar) with
    | true => simp [hA]
    | false =>
      cases hB : listContains needleBadSql ((simplifiedMessage e).map lowerChar) with
      | true => simp [hA, hB]
      | false => simp [hA, hB]

/-- Concrete instances of C2's amended theorem: one per conjunct. -/
theorem C2_witness :
    execute_sql_query (fun _ => Except.error "near FROM, there is a syntax error")
      "SELECT" = (none, some msgBadSql) ∧
    execute_sql_query (fun _ => Except.error "database is locked") "SELECT 1"
      = (none, some msgGeneric) ∧
    (normalizeError "whatever" = msgNoSuchTable ∨ normalizeError "whatever" = msgBadSql ∨
      normalizeError "whatever" = msgGeneric) :=
  ⟨C2_theorem.1 _ "SELECT" "near FROM, there is a syntax error" rfl (by decide) (by decide),
   C2_theorem.2.1 _ "SELECT 1" "database is locked" rfl (by decide) (by decide),
   C2_theorem.2.2 "whatever"⟩

/-! ### Claim C5 — Schema Descriptor -/

/-- Claim C5: for every dataset, `generate_schema` returns the column entries
`<name> (<type>)` — one per column — joined by `", "` with no trailing
separator; it is deterministic, and a dataset with zero columns yields the
empty string.  (The embedding is a pure function, so freedom from side
effects is inherent.) -/
theorem C5_theorem :
    (∀ cols : List DfColumn,
      generate_schema cols
        = joinCommaSpace (cols.map fun c => c.name ++ " (" ++ c.dtype ++ ")")) ∧
    (∀ cols : List DfColumn,
      (cols.map fun c => c.name ++ " (" ++ c.dtype ++ ")").length = cols.length) ∧
    (∀ cols : List DfColumn, generate_schema cols = generate_schema cols) ∧
    generate_schema [] = "" := by
  refine ⟨fun cols => generate_schema_eq cols, fun cols => List.length_map _ _,
    fun _ => rfl, rfl⟩

/-! ### Claim C6 — Table Materializer type mapping -/

/-- Claim C6: the materializer's column-type mapping is a pure function of the
column's dtype: the integer dtype (`int64`) maps to the integer column type,
the floating-point dtype (`float64`) to the floating-point column type, and
every other dtype to the text column type; mapping the same dtype twice gives
the same column type, and the created table applies exactly this mapping
column-wise. -/
theorem C6_theorem :
    mapDtype "int64" = SqlColType.integerType ∧
    mapDtype "float64" = SqlColType.floatType ∧
    (∀ d : String, d ≠ "int64" → d ≠ "float64" → mapDtype d = SqlColType.stringType) ∧
    (∀ c₁ c₂ : DfColumn, c₁.dtype = c₂.dtype → mapDtype c₁.dtype = mapDtype c₂.dtype) ∧
    (∀ cols : List DfColumn,
      create_database_table cols = cols.map fun c => (c.name, mapDtype c.dtype)) := by
  refine ⟨rfl, rfl, ?_, ?_, fun _ => rfl⟩
  · intro d h1 h2
    simp [mapDtype, h1, h2]
  · intro c₁ c₂ h
    rw [h]

/-- Concrete instance of C6's conditional conjunct: an `object` dtype maps to
the text column type. -/
theorem C6_witness : mapDtype "object" = SqlColType.stringType :=
  C6_theorem.2.2.1 "object" (by decide) (by decide)

/-! ### Helper lemmas for the submit handler -/

theorem submitQuery_duplicate (llm : String → Except String String)
    (run : String → Except String (List (List String)))
    (toHtml toStr : List (List String) → String) (df : List DfColumn)
    (s : SessionState) (user_query : String) (h : s.current_query = user_query) :
    submitQuery true llm run toHtml toStr df s user_query =
      { state := s, outcome := SubmitOutcome.duplicate, warningShown := true
        promptsBuilt := 0, genCalls := 0, sqlExecs := 0 } := by
  simp [submitQuery, h]

theorem submitQuery_executed (llm : String → Except String String)
    (run : String → Except String (List (List String)))
    (toHtml toStr : List (List String) → String) (df : List DfColumn)
    (s : SessionState) (user_query sql : String)
    (hne : s.current_query ≠ user_query)
    (hllm : llm (construct_prompt user_query (generate_schema df)) = Except.ok sql) :
    submitQuery true llm run toHtml toStr df s user_query =
      { state := { history := s.history ++
                     [entryFor toHtml toStr user_query (pyStripStr sql)
                       (execute_sql_query run (pyStripStr sql)).1
                       ((execute_sql_query run (pyStripStr sql)).2.getD "")],
                   current_query := user_query },
        outcome := SubmitOutcome.executed (pyStripStr sql)
          (execute_sql_query run (pyStripStr sql)).1
          (execute_sql_query run (pyStripStr sql)).2,
        warningShown := false, promptsBuilt := 1, genCalls := 1, sqlExecs := 1 } := by
  have hgen : generate_sql_query llm user_query (generate_schema df)
      = Except.ok (pyStripStr sql) := by
    rw [generate_sql_query, hllm]; rfl
  simp [submitQuery, hne, hgen]

/-! ### Claim C3 — duplicate submissions -/

/-- Claim C3: a submission equal to the immediately prior request text runs no
part of the pipeline (no prompt, no completion call, no SQL execution),
appends nothing, leaves the state unchanged and surfaces one warning; and
submitting the same (new) request text twice in succession — with the
completion service succeeding — performs exactly one pipeline execution and
appends exactly one history entry, the second submission being a warned no-op. -/
theorem C3_theorem :
    (∀ (llm : String → Except String String)
      (run : String → Except String (List (List String)))
      (toHtml toStr : List (List String) → String) (df : List DfColumn)
      (s : SessionState) (user_query : String),
      s.current_query = user_query →
      submitQuery true llm run toHtml toStr df s user_query =
        { state := s, outcome := SubmitOutcome.duplicate, warningShown := true
          promptsBuilt := 0, genCalls := 0, sqlExecs := 0 }) ∧
    (∀ (llm : String → Except String String)
      (run : String → Except String (List (List String)))
      (toHtml toStr : List (List String) → String) (df : List DfColumn)
      (s : SessionState) (t sql : String),
      t ≠ s.current_query →
      llm (construct_prompt t (generate_schema df)) = Except.ok sql →
      (submitQuery true llm run toHtml toStr df s t).promptsBuilt = 1 ∧
      (submitQuery true llm run toHtml toStr df s t).genCalls = 1 ∧
      (submitQuery true llm run toHtml toStr df s t).sqlExecs = 1 ∧
      (submitQuery true llm run toHtml toStr df s t).state.history.length
        = s.history.length + 1 ∧
      submitQuery true llm run toHtml toStr df
          (submitQuery true llm run toHtml toStr df s t).state t =
        { state := (submitQuery true llm run toHtml toStr df s t).state
          outcome := SubmitOutcome.duplicate, warningShown := true
          promptsBuilt := 0, genCalls := 0, sqlExecs := 0 }) := by
  constructor
  · intro llm run toHtml toStr df s user_query h
    exact submitQuery_duplicate llm run toHtml toStr df s user_query h
  · intro llm run toHtml toStr df s t sql hne hllm
    have h1 := submitQuery_executed llm run toHtml toStr df s t sql (Ne.symm hne) hllm
    refine ⟨by rw [h1], by rw [h1], by rw [h1], by rw [h1]; simp, ?_⟩
    rw [h1]
    exact submitQuery_duplicate llm run toHtml toStr df _ t rfl

/-- Concrete instance of C3: a fresh request submitted twice in succession
with a succeeding completion service. -/
theorem C3_witness :
    (submitQuery true (fun _ => Except.ok "SELECT 1") (fun _ => Except.ok [["1"]])
      (fun _ => "<table>") (fun _ => "1") [] initialState "count rows").promptsBuilt = 1 ∧
    (submitQuery true (fun _ => Except.ok "SELECT 1") (fun _ => Except.ok [["1"]])
      (fun _ => "<table>") (fun _ => "1") [] initialState "count rows").genCalls = 1 ∧
    (submitQuery true (fun _ => Except.ok "SELECT 1") (fun _ => Except.ok [["1"]])
      (fun _ => "<table>") (fun _ => "1") [] initialState "count rows").sqlExecs = 1 ∧
    (submitQuery true (fun _ => Except.ok "SELECT 1") (fun _ => Except.ok [["1"]])
      (fun _ => "<table>") (fun _ => "1") [] initialState "count rows").state.history.length
      = initialState.history.length + 1 ∧
    submitQuery true (fun _ => Except.ok "SELECT 1") (fun _ => Except.ok [["1"]])
      (fun _ => "<table>") (fun _ => "1") []
      (submitQuery true (fun _ => Except.ok "SELECT 1") (fun _ => Except.ok [["1"]])
        (fun _ => "<table>") (fun _ => "1") [] initialState "count rows").state
      "count rows" =
      { state := (submitQuery true (fun _ => Except.ok "SELECT 1")
          (fun _ => Except.ok [["1"]]) (fun _ => "<table>") (fun _ => "1") []
          initialState "count rows").state
        outcome := SubmitOutcome.duplicate, warningShown := true
        promptsBuilt := 0, genCalls := 0, sqlExecs := 0 } :=
  C3_theorem.2 (fun _ => Except.ok "SELECT 1") (fun _ => Except.ok [["1"]])
    (fun _ => "<table>") (fun _ => "1") [] initialState "count rows" "SELECT 1"
    (by decide) rfl

/-! ### Claim C7 — missing credential blocks the submission -/

/-- Claim C7: with no completion-service API key supplied, a submission is
blocked with a user-visible warning: no prompt is built, no completion call is
made, no SQL is executed, and the history and pending-request state are left
unchanged. -/
theorem C7_theorem :
    ∀ (llm : String → Except String String)
      (run : String → Except String (List (List String)))
      (toHtml toStr : List (List String) → String) (df : List DfColumn)
      (s : SessionState) (user_query : String),
      submitQuery false llm run toHtml toStr df s user_query =
        { state := s, outcome := SubmitOutcome.missingKey, warningShown := true
          promptsBuilt := 0, genCalls := 0, sqlExecs := 0 } := by
  intro llm run toHtml toStr df s user_query
  rfl

/-! ### Claim C8 — completion-service failure propagates -/

/-- Claim C8: when the completion-service call fails on a new request, the
failure propagates to the caller as an explicit error (it is not caught or
turned into empty SQL), no SQL is executed, and no entry is appended to the
history (the pending-request text, already assigned before the call, is the
only state change). -/
theorem C8_theorem
    (llm : String → Except String String)
    (run : String → Except String (List (List String)))
    (toHtml toStr : List (List String) → String) (df : List DfColumn)
    (s : SessionState) (user_query e : String)
    (hne : s.current_query ≠ user_query)
    (hllm : llm (construct_prompt user_query (generate_schema df)) = Except.error e) :
    submitQuery true llm run toHtml toStr df s user_query =
      { state := { history := s.history, current_query := user_query }
        outcome := SubmitOutcome.genFailure e, warningShown := false
        promptsBuilt := 1, genCalls := 1, sqlExecs := 0 } := by
  have hgen : generate_sql_query llm user_query (generate_schema df) = Except.error e := by
    rw [generate_sql_query, hllm]; rfl
  simp [submitQuery, hne, hgen]

/-- Concrete instance of C8: an unreachable completion service on a fresh
request. -/
theorem C8_witness :
    submitQuery true (fun _ => Except.error "APIConnectionError")
      (fun _ => Except.ok []) (fun _ => "") (fun _ => "") [] initialState "list rows" =
      { state := { history := [], current_query := "list rows" }
        outcome := SubmitOutcome.genFailure "APIConnectionError", warningShown := false
        promptsBuilt := 1, genCalls := 1, sqlExecs := 0 } :=
  C8_theorem (fun _ => Except.error "APIConnectionError") (fun _ => Except.ok [])
    (fun _ => "") (fun _ => "") [] initialState "list rows" "APIConnectionError"
    (by decide) rfl

/-! ### Claim C10 — the empty first submission is rejected as a duplicate -/

/-- Claim C10: the pending-request state is initialized to the empty string
and the duplicate check compares against it, so a session's first submission
with empty request text is rejected as a duplicate — warning shown, no
pipeline execution, no history entry — and an empty request can never execute
as the session's first query. -/
theorem C10_theorem :
    initialState.current_query = "" ∧
    ∀ (llm : String → Except String String)
      (run : String → Except String (List (List String)))
      (toHtml toStr : List (List String) → String) (df : List DfColumn),
      submitQuery true llm run toHtml toStr df initialState "" =
        { state := initialState, outcome := SubmitOutcome.duplicate, warningShown := true
          promptsBuilt := 0, genCalls := 0, sqlExecs := 0 } :=
  ⟨rfl, fun llm run toHtml toStr df =>
    submitQuery_duplicate llm run toHtml toStr df initialState "" rfl⟩

/-! ### Claim C9 — forced column relabeling at upload -/

/-- Claim C9: the upload step forcibly assigns the fixed ordered list of eight
expected column names regardless of the CSV's actual header; for every CSV
whose column count differs from eight the assignment raises before any table
is created, so the pipeline only ever proceeds on datasets with exactly eight
columns — and then the materialized table's column names are exactly the
expected ones. -/
theorem C9_theorem (csv : DataFrame) :
    (csv.cols.length ≠ 8 →
      uploadStep csv
        = Except.error "Length mismatch: columns must match number of columns") ∧
    (csv.cols.length = 8 →
      ∃ t, uploadStep csv = Except.ok t ∧ t.map Prod.fst = expectedColumns) := by
  constructor
  · intro h
    have hne : ¬(expectedColumns.length = csv.cols.length) := fun hh =>
      h (hh.symm.trans (by decide))
    have hset : setColumns csv expectedColumns
        = Except.error "Length mismatch: columns must match number of columns" := by
      unfold setColumns
      rw [if_neg hne]
    unfold uploadStep
    rw [hset]
  · intro h
    have heq : expectedColumns.length = csv.cols.length := by rw [h]; decide
    have hset : setColumns csv expectedColumns
        = Except.ok ⟨(csv.cols.zip expectedColumns).map fun p => ⟨p.2, p.1.dtype⟩⟩ := by
      unfold setColumns
      rw [if_pos heq]
    refine ⟨create_database_table
      ((csv.cols.zip expectedColumns).map fun p => ⟨p.2, p.1.dtype⟩), ?_, ?_⟩
    · unfold uploadStep
      rw [hset]
    · show (((csv.cols.zip expectedColumns).map fun p => (⟨p.2, p.1.dtype⟩ : DfColumn)).map
        fun c => (c.name, mapDtype c.dtype)).map Prod.fst = expectedColumns
      rw [List.map_map, List.map_map]
      exact List.map_snd_zip csv.cols expectedColumns (by rw [h]; decide)

/-- Concrete instances of C9: an empty CSV is rejected before any table
exists; an eight-column CSV with a foreign header proceeds and gets the
expected column names. -/
theorem C9_witness :
    uploadStep ⟨[]⟩
      = Except.error "Length mismatch: columns must match number of columns" ∧
    ∃ t, uploadStep ⟨[⟨"a", "int64"⟩, ⟨"b", "float64"⟩, ⟨"c", "object"⟩, ⟨"d", "object"⟩,
        ⟨"e", "object"⟩, ⟨"f", "object"⟩, ⟨"g", "object"⟩, ⟨"h", "object"⟩]⟩
      = Except.ok t ∧ t.map Prod.fst = expectedColumns :=
  ⟨( C9_theorem ⟨[]⟩).1 (by decide),
   ( C9_theorem ⟨[⟨"a", "int64"⟩, ⟨"b", "float64"⟩, ⟨"c", "object"⟩, ⟨"d", "object"⟩,
      ⟨"e", "object"⟩, ⟨"f", "object"⟩, ⟨"g", "object"⟩, ⟨"h", "object"⟩]⟩).2 (by decide)⟩

/-! ### Claim C4 — rendering of history entries -/

theorem errorPrefix_ne_empty (err : String) : "Error: " ++ err ≠ "" := by
  intro hh
  have h1 : ("Error: " ++ err).data = [] := congrArg String.data hh
  have h2 : ("Error: " ++ err).data = 'E' :: ("rror: " ++ err).data := rfl
  rw [h2] at h1
  exact List.noConfusion h1

/-- Claim C4 (as frozen) is false on the code: an execution error is not
rendered as its normalized message — the stored response prefixes it with
"Error: ", so the rendered text differs from the normalized message. -/
theorem C4_counterexample :
    renderResult (entryFor (fun _ => "") (fun _ => "") "show rows" "SELECT x"
        none "The query has a syntax error.")
      = RenderedBlock.textBlock "Error: The query has a syntax error." ∧
    "Error: The query has a syntax error." ≠ "The query has a syntax error." := by
  refine ⟨by decide, by decide⟩

/-- Claim C4 (amended): for every rendered history entry — with pandas
rendering of a non-empty row set producing non-empty text — a non-empty row
set whose request contains "table" (case-insensitively) renders as the
formatted tabular block; a non-empty row set without "table" renders as plain
text; an empty row set renders as the fixed no-results message; and an
execution error renders as its normalized message prefixed with "Error: ". -/
theorem C4_theorem (toHtml toStr : List (List String) → String)
    (q sql : String) (rows : List (List String)) (err : String) :
    (rows ≠ [] → listContains "table".data (q.data.map lowerChar) = true →
      toHtml rows ≠ "" →
      renderResult (entryFor toHtml toStr q sql (some rows) err)
        = RenderedBlock.tableBlock (toHtml rows)) ∧
    (rows ≠ [] → listContains "table".data (q.data.map lowerChar) = false →
      toStr rows ≠ "" →
      renderResult (entryFor toHtml toStr q sql (some rows) err)
        = RenderedBlock.textBlock (toStr rows)) ∧
    (renderResult (entryFor toHtml toStr q sql (some []) err)
      = RenderedBlock.textBlock
          "The query executed successfully but returned no results.") ∧
    (renderResult (entryFor toHtml toStr q sql none err)
      = RenderedBlock.textBlock ("Error: " ++ err)) := by
  refine ⟨?_, ?_, ?_, ?_⟩
  · intro h1 h2 h3
    cases rows with
    | nil => exact absurd rfl h1
    | cons r rs => simp [entryFor, formatResult, renderResult, h2, h3]
  · intro h1 h2 h3
    cases rows with
    | nil => exact absurd rfl h1
    | cons r rs => simp [entryFor, formatResult, renderResult, h2, h3]
  · simp [entryFor, formatResult, renderResult,
      (by decide : ("The query executed successfully but returned no results." : String) ≠ "")]
  · simp [entryFor, formatResult, renderResult, errorPrefix_ne_empty err]

/-- Concrete instances of C4's amended theorem: the tabular and the plain-text
branch. -/
theorem C4_witness :
    renderResult (entryFor (fun _ => "<table>1</table>") (fun _ => "1")
        "show all rows as a table" "SELECT * FROM data" (some [["1"]]) "")
      = RenderedBlock.tableBlock "<table>1</table>" ∧
    renderResult (entryFor (fun _ => "<table>1</table>") (fun _ => "1")
        "count the rows" "SELECT COUNT( * ) FROM data" (some [["1"]]) "")
      = RenderedBlock.textBlock "1" :=
  ⟨(C4_theorem (fun _ => "<table>1</table>") (fun _ => "1") "show all rows as a table"
      "SELECT * FROM data" [["1"]] "").1 (by decide) (by decide) (by decide),
   (C4_theorem (fun _ => "<table>1</table>") (fun _ => "1") "count the rows"
      "SELECT COUNT( * ) FROM data" [["1"]] "").2.1 (by decide) (by decide) (by decide)⟩

end ConvDb
